import Mathlib

/-!
Verification of the MedGuard encrypted record store
(`backend/cyborg_integration.py`, `backend/app.py`, `backend/models.py`,
`backend/medical_chatbot.py`).

The store keeps two tables: `encrypted_records` and `audit_trail`.  We embed
the database state as two lists of rows, SQL `SELECT ... WHERE ... ORDER BY
created_at DESC LIMIT n` as filter / sort / take, and the external libraries
(`json.dumps` / `json.loads`, `Fernet.encrypt` / `Fernet.decrypt`) as function
parameters whose documented contracts appear as hypotheses where a claim needs
them.  Failures of the persistence layer (an INSERT being rejected) are
injected as explicit boolean parameters, mirroring the `try/except` structure
of the Python code.
-/

namespace MedGuard

/-- A JSON-like payload: the serializable key/value structures that
`store_encrypted_record` receives as its `data` argument. -/
inductive Json where
  | jnull : Json
  | jbool : Bool → Json
  | jnum : Int → Json
  | jstr : String → Json
  | jarr : List Json → Json
  | jobj : List (String × Json) → Json

/-- The `role_based_access` value.  The code always stores
`json.dumps({"doctor": True, "patient": True})`; psycopg2 returns the JSONB
column as the corresponding mapping on read. -/
structure AccessPolicy where
  doctor : Bool
  patient : Bool

/-- The constant policy written by `store_encrypted_record`
(cyborg_integration.py line 114). -/
def defaultPolicy : AccessPolicy := { doctor := true, patient := true }

/-- The `details` dict passed to `_log_audit` by `store_encrypted_record`:
`{"record_id": record_id, "record_type": record_type}`. -/
structure AuditDetails where
  record_id : String
  record_type : String

/-- One row of the `encrypted_records` table.  `C` is the (opaque) ciphertext
type produced by `Fernet.encrypt`.  `created_at` is the database timestamp
(`DEFAULT CURRENT_TIMESTAMP`), modelled as a natural number. -/
structure Row (C : Type) where
  id : String
  patient_id : String
  record_type : String
  encrypted_data : C
  role_based_access : AccessPolicy
  created_at : Nat

/-- One row of the `audit_trail` table. -/
structure AuditRow where
  patient_id : String
  action : String
  user_role : String
  details : AuditDetails
  timestamp : Nat

/-- The persistent state: the two tables touched by the store. -/
structure DBState (C : Type) where
  records : List (Row C)
  audit : List AuditRow

def DBState.empty {C : Type} : DBState C := { records := [], audit := [] }

/-- The value returned by a successful `store_encrypted_record`
(cyborg_integration.py lines 126-130). -/
structure StoreResult where
  record_id : String
  encrypted : Bool
  storage : String

/-- One element of the list returned by `query_encrypted_records`
(cyborg_integration.py lines 162-168). -/
structure QueryResult where
  id : String
  record_type : String
  data : Json
  created_at : Nat
  role_based_access : AccessPolicy

/-- `CyborgDBClient._log_audit`: inserts one row into `audit_trail`; any
failure of the insert is caught inside the method and swallowed
(cyborg_integration.py lines 196-208).  `auditFails` injects such a failure. -/
def log_audit {C : Type} (auditFails : Bool) (patient_id action user_role : String)
    (details : AuditDetails) (now : Nat) (st : DBState C) : DBState C :=
  if auditFails then st
  else { st with audit := st.audit ++
          [{ patient_id := patient_id, action := action, user_role := user_role,
             details := details, timestamp := now }] }

/-- `CyborgDBClient.store_encrypted_record` (cyborg_integration.py lines
93-134): serialize `data` with `dumps`, encrypt, INSERT one row into
`encrypted_records` with the constant access policy, log one audit entry,
commit, and return `{record_id, encrypted: True, storage: "CyborgDB"}`.
If the record INSERT is rejected (`insertFails`), the exception handler rolls
the transaction back and re-raises: the state is unchanged and the result is
`none`.  A failing audit INSERT (`auditFails`) is swallowed inside
`_log_audit`, so the store still commits and succeeds. -/
def store_encrypted_record {C : Type} (dumps : Json → String) (encrypt : String → C)
    (insertFails auditFails : Bool) (record_id : String) (now : Nat)
    (record_type : String) (data : Json) (patient_id : String)
    (st : DBState C) : DBState C × Option StoreResult :=
  if insertFails then (st, none)
  else
    let encrypted_data := encrypt (dumps data)
    let row : Row C :=
      { id := record_id, patient_id := patient_id, record_type := record_type,
        encrypted_data := encrypted_data, role_based_access := defaultPolicy,
        created_at := now }
    let st1 : DBState C := { st with records := st.records ++ [row] }
    let st2 := log_audit auditFails patient_id "STORE" "SYSTEM"
      { record_id := record_id, record_type := record_type } now st1
    (st2, some { record_id := record_id, encrypted := true, storage := "CyborgDB" })

/-- The ordering used by `ORDER BY created_at DESC`: later timestamps first. -/
def createdDesc {C : Type} (a b : Row C) : Prop := b.created_at ≤ a.created_at

instance {C : Type} : DecidableRel (createdDesc (C := C)) :=
  fun a b => Nat.decLe b.created_at a.created_at

instance {C : Type} : IsTotal (Row C) (createdDesc (C := C)) :=
  ⟨fun a b => Nat.le_total b.created_at a.created_at⟩

instance {C : Type} : IsTrans (Row C) (createdDesc (C := C)) :=
  ⟨fun _ _ _ h1 h2 => Nat.le_trans h2 h1⟩

/-- The row-selection part of `query_encrypted_records` (cyborg_integration.py
lines 143-156): `SELECT * FROM encrypted_records WHERE patient_id = %s
[AND record_type = %s] ORDER BY created_at DESC LIMIT %s`.  The Python guard
is `if record_type:`, so a `None` filter and an empty-string filter both take
the unfiltered branch (Python truthiness). -/
def select_rows {C : Type} (rows : List (Row C)) (patient_id : String)
    (record_type : Option String) (limit : Nat) : List (Row C) :=
  let filtered : List (Row C) :=
    match record_type with
    | some t =>
      if t = "" then rows.filter (fun r => r.patient_id == patient_id)
      else rows.filter (fun r => r.patient_id == patient_id && r.record_type == t)
    | none => rows.filter (fun r => r.patient_id == patient_id)
  (filtered.insertionSort createdDesc).take limit

/-- The WHERE clause of `query_encrypted_records` as a single predicate, for
reasoning: a row is selected iff its `patient_id` matches and, when a
non-empty `record_type` filter is given, its `record_type` matches too.
`select_rows_eq` proves this equal to the two-branch code above. -/
def matchesQuery {C : Type} (patient_id : String) (record_type : Option String)
    (r : Row C) : Bool :=
  match record_type with
  | none => r.patient_id == patient_id
  | some t =>
    if t = "" then r.patient_id == patient_id
    else r.patient_id == patient_id && r.record_type == t

/-- Decrypt and deserialize one fetched row (cyborg_integration.py lines
159-168).  `Fernet.decrypt` raises on an undecryptable token and `json.loads`
raises on unparsable text; both abort the query, hence `Option`. -/
def decryptRow {C : Type} (decrypt : C → Option String) (loads : String → Option Json)
    (row : Row C) : Option QueryResult :=
  match decrypt row.encrypted_data with
  | none => none
  | some s =>
    match loads s with
    | none => none
    | some d =>
      some { id := row.id, record_type := row.record_type, data := d,
             created_at := row.created_at, role_based_access := row.role_based_access }

/-- The `for row in cursor.fetchall()` loop: any exception while decrypting a
row propagates and the whole query fails. -/
def decryptRows {C : Type} (decrypt : C → Option String) (loads : String → Option Json) :
    List (Row C) → Option (List QueryResult)
  | [] => some []
  | row :: rest =>
    (decryptRow decrypt loads row).bind fun res =>
      (decryptRows decrypt loads rest).bind fun others => some (res :: others)

/-- `CyborgDBClient.query_encrypted_records` (cyborg_integration.py lines
136-174): select matching rows most-recent-first up to `limit`, then decrypt
and deserialize each. -/
def query_encrypted_records {C : Type} (decrypt : C → Option String)
    (loads : String → Option Json) (st : DBState C) (patient_id : String)
    (record_type : Option String) (limit : Nat) : Option (List QueryResult) :=
  decryptRows decrypt loads (select_rows st.records patient_id record_type limit)

/-- The structure assembled by `CyborgDBClient.get_unified_records`
(cyborg_integration.py lines 186-191). -/
structure Unified where
  appointments : List QueryResult
  labs : List QueryResult
  prescriptions : List QueryResult
  billing : List QueryResult

/-- `CyborgDBClient.get_unified_records` (cyborg_integration.py lines
176-194): four independent queries, one per fixed record type, each with the
default limit 10; any failure propagates. -/
def get_unified_records {C : Type} (decrypt : C → Option String)
    (loads : String → Option Json) (st : DBState C) (patient_id : String) :
    Option Unified :=
  match query_encrypted_records decrypt loads st patient_id (some "appointment") 10 with
  | none => none
  | some appointments =>
    match query_encrypted_records decrypt loads st patient_id (some "lab_order") 10 with
    | none => none
    | some labs =>
      match query_encrypted_records decrypt loads st patient_id (some "prescription") 10 with
      | none => none
      | some prescriptions =>
        match query_encrypted_records decrypt loads st patient_id (some "billing") 10 with
        | none => none
        | some billing =>
          some { appointments := appointments, labs := labs,
                 prescriptions := prescriptions, billing := billing }

/-- The request body of `POST /api/appointments` (app.py lines 32-36). -/
structure AppointmentRequest where
  patient_id : String
  doctor_name : String
  appointment_date : String
  reason : String

/-- The JSON body returned by the create endpoints in app.py:
`{"status": "success", "response": ..., "hipaa_compliant": True}`. -/
structure CreateResponse where
  status : String
  response : String
  hipaa_compliant : Bool

/-- The payload dict built by `create_appointment` (app.py line 94). -/
def appointmentData (appointment_id : String) (req : AppointmentRequest) : Json :=
  Json.jobj [("appointment_id", Json.jstr appointment_id),
             ("doctor_name", Json.jstr req.doctor_name),
             ("date", Json.jstr req.appointment_date),
             ("reason", Json.jstr req.reason)]

/-- The endpoint `POST /api/appointments` (app.py lines 85-100): generate an
`appointment_id`, build a human-readable response string, store the encrypted
record (whose own `record_id` is a second, independently generated uuid), and
return `{status, response, hipaa_compliant}`.  The return value of
`store_encrypted_record` is discarded.  An exception becomes an HTTP 500,
modelled as `none`. -/
def create_appointment {C : Type} (dumps : Json → String) (encrypt : String → C)
    (insertFails auditFails : Bool) (appointment_id record_id : String) (now : Nat)
    (req : AppointmentRequest) (st : DBState C) : DBState C × Option CreateResponse :=
  let response := "Appointment " ++ appointment_id ++ " scheduled with Dr. " ++ req.doctor_name
  match store_encrypted_record dumps encrypt insertFails auditFails record_id now
      "appointment" (appointmentData appointment_id req) req.patient_id st with
  | (st1, some _) =>
    (st1, some { status := "success", response := response, hipaa_compliant := true })
  | (st1, none) => (st1, none)

/-- The JSON body returned by `GET /api/records/{patient_id}`
(app.py lines 197-206). -/
structure RecordsResponse where
  status : String
  records : Unified
  encrypted : Bool

/-- The endpoint `GET /api/records/{patient_id}` (app.py lines 193-206): it
returns a hardcoded structure with four empty lists, never touching the
database or `CyborgDBClient.get_unified_records`. -/
def app_get_unified_records (patient_id : String) : RecordsResponse :=
  { status := "success",
    records := { appointments := [], labs := [], prescriptions := [], billing := [] },
    encrypted := true }

/-- The values of the `RecordType` enumeration in models.py (lines 8-15):
APPOINTMENT, LAB_ORDER, PRESCRIPTION, BILLING, CHAT_INTERACTION,
PATIENT_INFO. -/
def recordTypeValues : List String :=
  ["appointment", "lab_order", "prescription", "billing", "chat_interaction",
   "patient_info"]

/-- The `record_type` strings passed to `store_encrypted_record` by every call
site in the repository: app.py lines 93, 120, 147, 174, 216 and
medical_chatbot.py lines 134, 172. -/
def storePathRecordTypes : List String :=
  ["appointment", "lab_order", "prescription", "billing", "chat_interaction",
   "chat_interaction", "discharge_summary"]

/-- The enumeration named by the spec sentence behind claim C8 (spec words,
for comparison with `recordTypeValues` and `storePathRecordTypes`). -/
def specClaimedRecordTypes : List String :=
  ["appointment", "lab_order", "prescription", "billing", "chat_interaction",
   "discharge_summary", "patient_info"]

/-! Concrete instances used to evaluate the model: a one-record database with
ciphertext type `String`, the identity as `Fernet.encrypt`, `some` as
`Fernet.decrypt`, and a deserializer that wraps the text in a JSON string. -/

/-- A concrete `json.loads` stand-in for evaluation. -/
def cexLoads : String → Option Json := fun s => some (Json.jstr s)

/-- A concrete stored row: patient `p1`, an appointment. -/
def cexRow : Row String :=
  { id := "r1", patient_id := "p1", record_type := "appointment",
    encrypted_data := "ct1", role_based_access := defaultPolicy, created_at := 1 }

/-- A database holding exactly `cexRow`. -/
def cexDB : DBState String := { records := [cexRow], audit := [] }

/-- The same row with a different stored access policy. -/
def cexRowB : Row String :=
  { cexRow with role_based_access := { doctor := false, patient := true } }

/-- A database holding exactly `cexRowB`. -/
def cexDBB : DBState String := { records := [cexRowB], audit := [] }

/-- What `query_encrypted_records` returns for `cexRow` under `cexLoads`. -/
def cexResult : QueryResult :=
  { id := "r1", record_type := "appointment", data := Json.jstr "ct1",
    created_at := 1, role_based_access := defaultPolicy }

/-- A concrete appointment request. -/
def cexReq : AppointmentRequest :=
  { patient_id := "p1", doctor_name := "Smith", appointment_date := "2024-01-01",
    reason := "checkup" }

/-! Helper lemmas about the selection and decryption pipeline. -/

/-- The two SQL branches of `query_encrypted_records` compute the same rows as
filtering with the single predicate `matchesQuery`. -/
theorem select_rows_eq {C : Type} (rows : List (Row C)) (pid : String)
    (rt : Option String) (limit : Nat) :
    select_rows rows pid rt limit
      = ((rows.filter (matchesQuery pid rt)).insertionSort createdDesc).take limit := by
  rcases rt with _ | t
  · rfl
  · by_cases ht : t = ""
    · have hm : matchesQuery (C := C) pid (some t) = fun r => r.patient_id == pid := by
        funext r; simp [matchesQuery, ht]
      simp only [select_rows, hm, if_pos ht]
    · have hm : matchesQuery (C := C) pid (some t)
          = fun r => r.patient_id == pid && r.record_type == t := by
        funext r; simp [matchesQuery, ht]
      simp only [select_rows, hm, if_neg ht]

/-- Every selected row comes from the table and satisfies the WHERE clause. -/
theorem mem_select_rows {C : Type} {rows : List (Row C)} {pid : String}
    {rt : Option String} {limit : Nat} {row : Row C}
    (h : row ∈ select_rows rows pid rt limit) :
    row ∈ rows ∧ matchesQuery pid rt row = true := by
  rw [select_rows_eq] at h
  exact List.mem_filter.mp
    ((List.perm_insertionSort _ _).mem_iff.mp ((List.take_sublist _ _).subset h))

/-- The selected rows are sorted by `created_at` descending. -/
theorem select_rows_sorted {C : Type} (rows : List (Row C)) (pid : String)
    (rt : Option String) (limit : Nat) :
    List.Sorted createdDesc (select_rows rows pid rt limit) := by
  rw [select_rows_eq]
  exact List.Pairwise.sublist (List.take_sublist _ _) (List.sorted_insertionSort _ _)

/-- The selection never returns more rows than `LIMIT`. -/
theorem select_rows_length_le {C : Type} (rows : List (Row C)) (pid : String)
    (rt : Option String) (limit : Nat) :
    (select_rows rows pid rt limit).length ≤ limit := by
  rw [select_rows_eq]
  exact List.length_take_le _ _

/-- A decrypted result keeps the row's id, type, timestamp and policy. -/
theorem decryptRow_fields {C : Type} {decrypt : C → Option String}
    {loads : String → Option Json} {row : Row C} {x : QueryResult}
    (h : decryptRow decrypt loads row = some x) :
    x.id = row.id ∧ x.record_type = row.record_type ∧ x.created_at = row.created_at
      ∧ x.role_based_access = row.role_based_access := by
  unfold decryptRow at h
  split at h
  · exact Option.noConfusion h
  · split at h
    · exact Option.noConfusion h
    · cases h
      exact ⟨rfl, rfl, rfl, rfl⟩

/-- A successful decryption pass pairs each selected row with its result. -/
theorem decryptRows_forall2 {C : Type} {decrypt : C → Option String}
    {loads : String → Option Json} :
    ∀ {rows : List (Row C)} {res : List QueryResult},
      decryptRows decrypt loads rows = some res →
      List.Forall₂ (fun r x => decryptRow decrypt loads r = some x) rows res := by
  intro rows
  induction rows with
  | nil =>
    intro res h
    simp only [decryptRows] at h
    cases h
    exact List.Forall₂.nil
  | cons row rest ih =>
    intro res h
    simp only [decryptRows, Option.bind_eq_some] at h
    obtain ⟨x, hx, others, hothers, heq⟩ := h
    cases heq
    exact List.Forall₂.cons hx (ih hothers)

/-- Map a field of the results back to the corresponding field of the rows. -/
theorem forall2_map_eq {C α : Type} {decrypt : C → Option String}
    {loads : String → Option Json} {rows : List (Row C)} {res : List QueryResult}
    (hf : List.Forall₂ (fun r x => decryptRow decrypt loads r = some x) rows res)
    (f : QueryResult → α) (g : Row C → α)
    (hfg : ∀ r x, decryptRow decrypt loads r = some x → f x = g r) :
    res.map f = rows.map g := by
  induction hf with
  | nil => rfl
  | cons h _ ih => simp only [List.map_cons, ih, hfg _ _ h]

/-- Whatever the type filter, a selected row belongs to the queried patient. -/
theorem matchesQuery_patient {C : Type} {pid : String} {rt : Option String}
    {row : Row C} (h : matchesQuery pid rt row = true) : row.patient_id = pid := by
  rcases rt with _ | t
  · simpa [matchesQuery] using h
  · by_cases ht : t = ""
    · simpa [matchesQuery, ht] using h
    · simp only [matchesQuery, if_neg ht, Bool.and_eq_true, beq_iff_eq] at h
      exact h.1

/-- Each member of the right list of a `Forall₂` has a related left member. -/
theorem forall2_mem_right {α β : Type} {R : α → β → Prop} :
    ∀ {l₁ : List α} {l₂ : List β}, List.Forall₂ R l₁ l₂ →
      ∀ {x : β}, x ∈ l₂ → ∃ a ∈ l₁, R a x := by
  intro l₁ l₂ hf
  induction hf with
  | nil => intro x hx; cases hx
  | cons h _ ih =>
    intro x hx
    cases hx with
    | head => exact ⟨_, List.mem_cons_self _ _, h⟩
    | tail _ hx => obtain ⟨a, ha, hR⟩ := ih hx; exact ⟨a, List.mem_cons_of_mem _ ha, hR⟩

/-! The claims. -/

/-- C1: storing a serializable payload (serialize, then encrypt with the
store's key) and querying it back (decrypt, then deserialize) yields the
payload unchanged: on an empty store, a store followed by a query for the
same patient and type returns exactly one record whose `data` equals the
stored payload.  The hypotheses are the documented contracts of `Fernet`
(decrypt inverts encrypt under the same key) and of `json`
(`loads (dumps p) = p` for a serializable `p`). -/
theorem store_query_roundtrip {C : Type} (dumps : Json → String) (encrypt : String → C)
    (decrypt : C → Option String) (loads : String → Option Json)
    (record_id : String) (now : Nat) (record_type : String) (data : Json)
    (patient_id : String)
    (hdec : ∀ s, decrypt (encrypt s) = some s)
    (hload : loads (dumps data) = some data)
    (hrt : record_type ≠ "") :
    query_encrypted_records decrypt loads
        (store_encrypted_record dumps encrypt false false record_id now record_type data
          patient_id DBState.empty).1
        patient_id (some record_type) 10
      = some [{ id := record_id, record_type := record_type, data := data,
                created_at := now, role_based_access := defaultPolicy }] := by
  simp [query_encrypted_records, store_encrypted_record, log_audit, select_rows_eq,
        matchesQuery, DBState.empty, decryptRows, decryptRow, hdec, hload, hrt,
        List.insertionSort, List.orderedInsert]

/-- Witness for C1 at a concrete payload, key and store. -/
theorem store_query_roundtrip_witness :
    query_encrypted_records (C := String) some cexLoads
        (store_encrypted_record (fun _ => "ct1") id false false "r1" 1 "appointment"
          (Json.jstr "ct1") "p1" DBState.empty).1
        "p1" (some "appointment") 10
      = some [{ id := "r1", record_type := "appointment", data := Json.jstr "ct1",
                created_at := 1, role_based_access := defaultPolicy }] :=
  store_query_roundtrip (fun _ => "ct1") id some cexLoads "r1" 1 "appointment"
    (Json.jstr "ct1") "p1" (fun _ => rfl) rfl (by decide)

/-- C2: any successful result of `query_encrypted_records` is sorted by
`created_at` descending (most recent first) and never longer than the
requested limit. -/
theorem query_sorted_and_limited {C : Type} (decrypt : C → Option String)
    (loads : String → Option Json) (st : DBState C) (patient_id : String)
    (record_type : Option String) (limit : Nat) (res : List QueryResult)
    (h : query_encrypted_records decrypt loads st patient_id record_type limit = some res) :
    List.Sorted (fun a b : Nat => b ≤ a) (res.map QueryResult.created_at)
      ∧ res.length ≤ limit := by
  simp only [query_encrypted_records] at h
  have hf := decryptRows_forall2 h
  constructor
  · rw [forall2_map_eq hf QueryResult.created_at Row.created_at
      (fun _ _ hx => (decryptRow_fields hx).2.2.1)]
    exact List.Pairwise.map _ (fun _ _ hab => hab)
      (select_rows_sorted st.records patient_id record_type limit)
  · rw [hf.length_eq.symm]
    exact select_rows_length_le _ _ _ _

/-- Witness for C2 on the concrete one-record database. -/
theorem query_sorted_and_limited_witness :
    List.Sorted (fun a b : Nat => b ≤ a) ([cexResult].map QueryResult.created_at)
      ∧ ([cexResult] : List QueryResult).length ≤ 10 :=
  query_sorted_and_limited (C := String) some cexLoads cexDB "p1" (some "appointment")
    10 [cexResult] rfl

/-- C3 (amended): for every NON-EMPTY type filter `T`, every selected row has
the queried `patient_id` and `record_type = T` (so records of other patients
or other types, in particular any record stored for a different patient, are
never included), and every returned result has `record_type = T`.  The
amendment excludes `T = ""`: the Python guard `if record_type:` treats an
empty-string filter as no filter at all. -/
theorem query_filters_nonempty_type {C : Type} (decrypt : C → Option String)
    (loads : String → Option Json) (st : DBState C) (patient_id T : String)
    (limit : Nat) (res : List QueryResult) (hT : T ≠ "")
    (h : query_encrypted_records decrypt loads st patient_id (some T) limit = some res) :
    (∀ row ∈ select_rows st.records patient_id (some T) limit,
        row.patient_id = patient_id ∧ row.record_type = T)
      ∧ (∀ x ∈ res, x.record_type = T)
      ∧ ∀ (rt : Option String) (row : Row C),
          row ∈ select_rows st.records patient_id rt limit →
          row.patient_id = patient_id := by
  have hsel : ∀ row ∈ select_rows st.records patient_id (some T) limit,
      row.patient_id = patient_id ∧ row.record_type = T := by
    intro row hrow
    have hm := (mem_select_rows hrow).2
    simp only [matchesQuery, if_neg hT, Bool.and_eq_true, beq_iff_eq] at hm
    exact hm
  refine ⟨hsel, ?_, fun rt row hrow => matchesQuery_patient (mem_select_rows hrow).2⟩
  simp only [query_encrypted_records] at h
  have hf := decryptRows_forall2 h
  intro x hx
  obtain ⟨row, hrow, hdec⟩ := forall2_mem_right hf hx
  rw [(decryptRow_fields hdec).2.1]
  exact (hsel row hrow).2

/-- Witness for C3 on the concrete one-record database. -/
theorem query_filters_nonempty_type_witness :
    (∀ row ∈ select_rows (C := String) cexDB.records "p1" (some "appointment") 10,
        row.patient_id = "p1" ∧ row.record_type = "appointment")
      ∧ (∀ x ∈ [cexResult], x.record_type = "appointment")
      ∧ ∀ (rt : Option String) (row : Row String),
          row ∈ select_rows cexDB.records "p1" rt 10 → row.patient_id = "p1" :=
  query_filters_nonempty_type some cexLoads cexDB "p1" "appointment" 10 [cexResult]
    (by decide) rfl

/-- Counterexample for C3 as stated: querying with the empty-string type
filter returns a record whose `record_type` is `"appointment"`, not `""` —
Python's `if record_type:` silently drops the filter. -/
theorem query_empty_type_filter_cex :
    query_encrypted_records (C := String) some cexLoads cexDB "p1" (some "") 10
        = some [cexResult]
      ∧ cexResult.record_type = "appointment" ∧ ("appointment" : String) ≠ "" :=
  ⟨rfl, rfl, by decide⟩

/-- C4 (amended): a successful store whose audit INSERT is accepted appends
exactly one audit entry (patient, action STORE, role SYSTEM, the record id
and type, the write timestamp). -/
theorem store_audit_exactly_one {C : Type} (dumps : Json → String) (encrypt : String → C)
    (insertFails : Bool) (record_id : String) (now : Nat) (record_type : String)
    (data : Json) (patient_id : String) (st : DBState C)
    (h : ((store_encrypted_record dumps encrypt insertFails false record_id now record_type
        data patient_id st).2).isSome = true) :
    (store_encrypted_record dumps encrypt insertFails false record_id now record_type
        data patient_id st).1.audit
      = st.audit ++
        [{ patient_id := patient_id, action := "STORE", user_role := "SYSTEM",
           details := { record_id := record_id, record_type := record_type },
           timestamp := now }] := by
  cases insertFails with
  | true => simp [store_encrypted_record] at h
  | false => simp [store_encrypted_record, log_audit]

/-- Witness for C4's amended statement at a concrete store. -/
theorem store_audit_exactly_one_witness :
    (store_encrypted_record (C := String) (fun _ => "ct1") id false false "r1" 1
        "appointment" (Json.jstr "v") "p1" DBState.empty).1.audit
      = [{ patient_id := "p1", action := "STORE", user_role := "SYSTEM",
           details := { record_id := "r1", record_type := "appointment" },
           timestamp := 1 }] :=
  store_audit_exactly_one (fun _ => "ct1") id false "r1" 1 "appointment" (Json.jstr "v")
    "p1" DBState.empty rfl

/-- Counterexample for C4 as stated: when the audit INSERT is rejected,
`_log_audit` swallows the failure, so the store still succeeds (returns a
record identifier) yet appends NO audit entry. -/
theorem store_success_without_audit_cex :
    ((store_encrypted_record (C := String) (fun _ => "ct1") id false true "r1" 1
        "appointment" (Json.jstr "v") "p1" DBState.empty).2).isSome = true
      ∧ (store_encrypted_record (C := String) (fun _ => "ct1") id false true "r1" 1
        "appointment" (Json.jstr "v") "p1" DBState.empty).1.audit = [] :=
  ⟨rfl, rfl⟩

/-- C5: `CyborgDBClient.get_unified_records` really assembles the four
per-type queries — on the concrete one-appointment database it returns one
appointment and nothing else — while the exposed endpoint
`GET /api/records/{patient_id}` returns a hardcoded all-empty structure that
ignores both the database and the patient. -/
theorem unified_endpoint_returns_constant :
    (get_unified_records (C := String) some cexLoads cexDB "p1").map
        (fun u => (u.appointments.length, u.labs.length, u.prescriptions.length,
                   u.billing.length))
      = some (1, 0, 0, 0)
    ∧ (app_get_unified_records "p1").records.appointments.length = 0
    ∧ app_get_unified_records "p1" = app_get_unified_records "p2" :=
  ⟨rfl, rfl, rfl⟩

/-- C6 (amended): `store_encrypted_record` does return
`{record_id, encrypted: true}` to its caller, but the create endpoint
discards it and answers `{status, response, hipaa_compliant}` instead. -/
theorem store_returns_id_endpoint_discards {C : Type} (dumps : Json → String)
    (encrypt : String → C) (auditFails : Bool) (appointment_id record_id : String)
    (now : Nat) (req : AppointmentRequest) (st : DBState C) :
    (store_encrypted_record dumps encrypt false auditFails record_id now "appointment"
        (appointmentData appointment_id req) req.patient_id st).2
      = some { record_id := record_id, encrypted := true, storage := "CyborgDB" }
    ∧ (create_appointment dumps encrypt false auditFails appointment_id record_id now
        req st).2
      = some { status := "success",
               response := "Appointment " ++ appointment_id ++ " scheduled with Dr. "
                 ++ req.doctor_name,
               hipaa_compliant := true } :=
  ⟨rfl, rfl⟩

/-- Counterexample for C6 as stated: the body returned by the create
endpoint is identical for two different generated record identifiers, and
carries only `status`, `response` and `hipaa_compliant` — the persisted
`record_id` is not part of the response. -/
theorem create_response_independent_of_record_id :
    (create_appointment (C := String) (fun _ => "ct1") id false false "aid-1" "rid-1" 7
        cexReq DBState.empty).2
      = (create_appointment (C := String) (fun _ => "ct1") id false false "aid-1" "rid-2" 7
        cexReq DBState.empty).2
    ∧ (create_appointment (C := String) (fun _ => "ct1") id false false "aid-1" "rid-1" 7
        cexReq DBState.empty).2
      = some { status := "success",
               response := "Appointment aid-1 scheduled with Dr. Smith",
               hipaa_compliant := true } :=
  ⟨rfl, rfl⟩

/-- C7: when the record INSERT is rejected, `store_encrypted_record` rolls
back and re-raises: the whole database state (in particular the record
table) is unchanged and the caller sees a failure instead of an identifier. -/
theorem store_insert_rejected_rollback {C : Type} (dumps : Json → String)
    (encrypt : String → C) (auditFails : Bool) (record_id : String) (now : Nat)
    (record_type : String) (data : Json) (patient_id : String) (st : DBState C) :
    store_encrypted_record dumps encrypt true auditFails record_id now record_type data
        patient_id st = (st, none) :=
  rfl

/-- C8 (amended): the `record_type` values written by the store call sites
are exactly {appointment, lab_order, prescription, billing, chat_interaction,
discharge_summary}; the `RecordType` enumeration of models.py lacks
`discharge_summary` and contains `patient_info`, which no store path ever
writes; the spec's seven-value list is precisely the union of the two. -/
theorem record_type_sets_amended :
    (∀ t ∈ storePathRecordTypes, t ∈ specClaimedRecordTypes)
    ∧ (∀ t ∈ recordTypeValues, t ∈ specClaimedRecordTypes)
    ∧ (∀ t ∈ specClaimedRecordTypes, t ∈ storePathRecordTypes ∨ t ∈ recordTypeValues)
    ∧ "discharge_summary" ∉ recordTypeValues
    ∧ "patient_info" ∉ storePathRecordTypes := by
  decide

/-- Witness for C8's amended statement at a concrete record type. -/
theorem record_type_sets_amended_witness :
    ("discharge_summary" : String) ∈ specClaimedRecordTypes :=
  record_type_sets_amended.1 "discharge_summary" (by decide)

/-- Counterexample for C8 as stated: `discharge_summary` is written by a
store path (medical_chatbot.py line 172) but is absent from the `RecordType`
enumeration, and `patient_info` is in the enumeration but no store path ever
writes it — so neither "ranges over exactly" nor "contains exactly" holds. -/
theorem record_type_enum_mismatch_cex :
    ("discharge_summary" : String) ∈ storePathRecordTypes
    ∧ ("discharge_summary" : String) ∉ recordTypeValues
    ∧ ("patient_info" : String) ∈ recordTypeValues
    ∧ ("patient_info" : String) ∉ storePathRecordTypes := by
  decide

/-- C9 (amended): every stored record is created with the constant access
policy `{doctor: true, patient: true}`, and `query_encrypted_records` reads
the stored policy back: each returned result carries the `role_based_access`
of one of the stored rows. -/
theorem access_policy_default_and_returned {C : Type} (dumps : Json → String)
    (encrypt : String → C) (auditFails : Bool) (record_id : String) (now : Nat)
    (record_type : String) (data : Json) (patient_id : String) (st : DBState C)
    (decrypt : C → Option String) (loads : String → Option Json)
    (qpid : String) (qrt : Option String) (limit : Nat) (res : List QueryResult)
    (h : query_encrypted_records decrypt loads st qpid qrt limit = some res) :
    (store_encrypted_record dumps encrypt false auditFails record_id now record_type data
        patient_id st).1.records
      = st.records ++
        [{ id := record_id, patient_id := patient_id,
           record_type := record_type, encrypted_data := encrypt (dumps data),
           role_based_access := defaultPolicy, created_at := now }]
    ∧ ∀ x ∈ res, ∃ r ∈ st.records, x.role_based_access = r.role_based_access := by
  constructor
  · cases auditFails <;> simp [store_encrypted_record, log_audit]
  · simp only [query_encrypted_records] at h
    have hf := decryptRows_forall2 h
    intro x hx
    obtain ⟨row, hrow, hdec⟩ := forall2_mem_right hf hx
    exact ⟨row, (mem_select_rows hrow).1, (decryptRow_fields hdec).2.2.2⟩

/-- Witness for C9's amended statement on the concrete database. -/
theorem access_policy_default_and_returned_witness :
    (store_encrypted_record (C := String) (fun _ => "ct2") id false false "r2" 2
        "lab_order" (Json.jstr "v") "p1" cexDB).1.records
      = cexDB.records ++
        [{ id := "r2", patient_id := "p1", record_type := "lab_order",
           encrypted_data := "ct2", role_based_access := defaultPolicy, created_at := 2 }]
    ∧ ∀ x ∈ [cexResult], ∃ r ∈ cexDB.records,
        x.role_based_access = r.role_based_access :=
  access_policy_default_and_returned (fun _ => "ct2") id false "r2" 2 "lab_order"
    (Json.jstr "v") "p1" cexDB some cexLoads "p1" (some "appointment") 10 [cexResult] rfl

/-- Counterexample for C9 as stated: two databases that differ only in one
row's stored `role_based_access` produce different query results — the
stored policy is read back and returned, so it is not dead data. -/
theorem access_policy_read_back_cex :
    (query_encrypted_records (C := String) some cexLoads cexDB "p1" none 10).map
        (fun rs => rs.map fun x => x.role_based_access.doctor) = some [true]
    ∧ (query_encrypted_records (C := String) some cexLoads cexDBB "p1" none 10).map
        (fun rs => rs.map fun x => x.role_based_access.doctor) = some [false]
    ∧ query_encrypted_records (C := String) some cexLoads cexDB "p1" none 10
        ≠ query_encrypted_records (C := String) some cexLoads cexDBB "p1" none 10 := by
  refine ⟨rfl, rfl, fun hcontra => ?_⟩
  exact absurd
    (congrArg (Option.map (fun rs => rs.map fun x => x.role_based_access.doctor)) hcontra)
    (by decide)

/-- C10: a rejected audit INSERT is caught inside `_log_audit` and never
propagates — the store still appends the encrypted record, leaves the audit
trail untouched, and returns success with the record identifier. -/
theorem audit_failure_never_blocks_store {C : Type} (dumps : Json → String)
    (encrypt : String → C) (record_id : String) (now : Nat) (record_type : String)
    (data : Json) (patient_id : String) (st : DBState C) :
    store_encrypted_record dumps encrypt false true record_id now record_type data
        patient_id st
      = ({ records := st.records ++
                        [{ id := record_id, patient_id := patient_id,
                           record_type := record_type,
                           encrypted_data := encrypt (dumps data),
                           role_based_access := defaultPolicy, created_at := now }],
           audit := st.audit },
         some { record_id := record_id, encrypted := true, storage := "CyborgDB" }) :=
  rfl

end MedGuard
